import Mathlib

/-!
Shallow embedding of the slot-machine backend (two variants: `server.js`,
the richer LNbits/sqlite variant, and the simpler callback variant in the
second source file).  JS numbers that hold money are modelled as `Int`
(the code only ever computes with integer sats/credits on the paths the
claims concern; `NaN` inputs, which JS `Number()` can produce and which
are falsy like `0`, are not representable and are noted where relevant).
The sqlite database is modelled as in-memory lists of rows; each awaited
`db.get`/`db.run` statement becomes one explicit step so that partial and
interleaved executions can be stated.
-/

namespace SlotDemo

/-- Row of the `users` table: `id INTEGER PRIMARY KEY AUTOINCREMENT,
username TEXT UNIQUE, balance INTEGER DEFAULT 0`. -/
structure User where
  id : Nat
  username : String
  balance : Int
deriving DecidableEq, Repr

/-- Row of the `spins` table (the `created_at` column is ignored; `nonce`
holds `Date.now()`). -/
structure SpinRec where
  user_id : Nat
  nonce : Nat
  lines : List (List String)
  prize : Int
deriving DecidableEq, Repr

/-- Row of the `invoices` table. -/
structure Invoice where
  user_id : Nat
  amount : Int
  payment_hash : String
  payment_request : String
  paid : Bool
deriving DecidableEq, Repr

/-- The persisted state: the three sqlite tables. -/
structure DB where
  users : List User
  spins : List SpinRec
  invoices : List Invoice
deriving DecidableEq, Repr

/-- `SELECT * FROM users WHERE id = ?` (first matching row). -/
def findUser (db : DB) (uid : Nat) : Option User :=
  db.users.find? (fun u => u.id == uid)

/-- `SELECT * FROM users WHERE username = ?` (first matching row). -/
def findUserByName (db : DB) (name : String) : Option User :=
  db.users.find? (fun u => u.username == name)

/-- `UPDATE users SET balance = ? WHERE id = ?`. -/
def updateBalance (db : DB) (uid : Nat) (b : Int) : DB :=
  { db with users := db.users.map (fun u => if u.id == uid then { u with balance := b } else u) }

/-- `UPDATE users SET balance = ? WHERE username = ?`. -/
def updateBalanceByName (db : DB) (name : String) (b : Int) : DB :=
  { db with users := db.users.map (fun u => if u.username == name then { u with balance := b } else u) }

/-- Fresh `AUTOINCREMENT` id: one more than the largest id ever handed out
(rows are never deleted, so the largest present id suffices). -/
def nextUserId (db : DB) : Nat :=
  db.users.foldr (fun u m => max u.id m) 0 + 1

/-- `INSERT INTO users (username, balance) VALUES (?, ?)`; returns the new
database and the `lastID` of the inserted row. -/
def insertUser (db : DB) (name : String) (bal : Int) : DB × Nat :=
  let uid := nextUserId db
  ({ db with users := db.users ++ [⟨uid, name, bal⟩] }, uid)

/-- `INSERT INTO spins (user_id, nonce, lines, prize) VALUES (?, ?, ?, ?)`. -/
def addSpin (db : DB) (s : SpinRec) : DB :=
  { db with spins := db.spins ++ [s] }

/-- `SELECT * FROM invoices WHERE payment_hash = ?` (first matching row). -/
def findInvoice (db : DB) (h : String) : Option Invoice :=
  db.invoices.find? (fun i => i.payment_hash == h)

/-- `INSERT INTO invoices (user_id, amount, payment_hash, payment_request, paid) VALUES (...)`. -/
def addInvoice (db : DB) (i : Invoice) : DB :=
  { db with invoices := db.invoices ++ [i] }

/-- `UPDATE invoices SET paid = 1 WHERE payment_hash = ?`. -/
def markInvoicePaid (db : DB) (h : String) : DB :=
  { db with invoices := db.invoices.map (fun i => if i.payment_hash == h then { i with paid := true } else i) }

/-! ### Outcome generation and payout evaluation (`randomSpin`, `PAY`) -/

/-- The symbol alphabet `SYMBOLS` of `server.js` (7 symbols). -/
def SYMBOLS : List String := ["🍒", "🍋", "🍉", "🔔", "💎", "7️⃣", "⭐"]

/-- The fixed payout object `PAY` of `server.js`, as an association list
from comma-joined triple key to credits won. -/
def PAYTABLE : List (String × Nat) :=
  [("⭐,⭐,⭐", 360),
   ("7️⃣,7️⃣,7️⃣", 156),
   ("💎,💎,💎", 84),
   ("🔔,🔔,🔔", 21),
   ("🍉,🍉,🍉", 8),
   ("🍋,🍋,🍋", 2),
   ("🍒,🍒,🍒", 3)]

/-- `PAY[key] || 0`: property lookup in the `PAY` object, defaulting to 0. -/
def payLookup (key : String) : Nat :=
  ((PAYTABLE.find? (fun e => e.1 == key)).map (fun e => e.2)).getD 0

/-- The 3×3 grid drawn by `randomSpin`: `cXrY` is `cols[X][Y]`
(column `X`, row `Y`).  The random draws are made explicit as an input. -/
structure Grid where
  c0r0 : String
  c0r1 : String
  c0r2 : String
  c1r0 : String
  c1r1 : String
  c1r2 : String
  c2r0 : String
  c2r1 : String
  c2r2 : String
deriving DecidableEq, Repr

/-- The three fixed pay lines of `randomSpin`: middle row, down diagonal,
up diagonal — `[cols[0][1],cols[1][1],cols[2][1]]`,
`[cols[0][0],cols[1][1],cols[2][2]]`, `[cols[0][2],cols[1][1],cols[2][0]]`. -/
def spinLines (g : Grid) : List (List String) :=
  [[g.c0r1, g.c1r1, g.c2r1],
   [g.c0r0, g.c1r1, g.c2r2],
   [g.c0r2, g.c1r1, g.c2r0]]

/-- A `winners` entry pushed by the evaluation loop of `randomSpin`. -/
structure Winner where
  lineIndex : Nat
  triple : String
  prizeCredits : Nat
deriving DecidableEq, Repr

/-- The evaluation loop of `randomSpin`: for each line, `key = join(",")`,
`p = PAY[key] || 0`, collect a winner when `p > 0` and accumulate the
prize.  `i` is the 1-based line index pushed into `winners`. -/
def evalLines : List (List String) → Nat → List Winner × Nat
  | [], _ => ([], 0)
  | l :: ls, i =>
    let key := String.intercalate "," l
    let p := payLookup key
    let rest := evalLines ls (i + 1)
    ((if p > 0 then [⟨i, key, p⟩] else []) ++ rest.1, p + rest.2)

/-- The record returned by `randomSpin`, with the random grid explicit. -/
structure SpinOutcome where
  columns : Grid
  lines : List (List String)
  winners : List Winner
  prizeCredits : Nat
deriving DecidableEq, Repr

/-- `randomSpin` of `server.js`, as a function of the drawn grid. -/
def randomSpin (g : Grid) : SpinOutcome :=
  let lines := spinLines g
  let ev := evalLines lines 1
  ⟨g, lines, ev.1, ev.2⟩

/-! ### The `spin` socket handler of `server.js` -/

/-- The reply emitted by the `spin` handler of `server.js`: one of the
`socket.emit("error", ...)` messages, or `spin-result` with `prize` and
`balance`. -/
inductive SpinReply where
  | notLoggedIn
  | userNotFound
  | invalidParams
  | insufficientBalance
  | result (prize : Int) (balance : Int)
deriving DecidableEq, Repr

/-- The three persistence statements of the successful `spin` path of
`server.js`, in source order: `UPDATE users SET balance = afterBet`,
`INSERT INTO spins ...`, `UPDATE users SET balance = finalBalance`. -/
def spinWrites (uid : Nat) (afterBet : Int) (nonce : Nat) (lines : List (List String))
    (prizeSats finalBalance : Int) : List (DB → DB) :=
  [fun db => updateBalance db uid afterBet,
   fun db => addSpin db ⟨uid, nonce, lines, prizeSats⟩,
   fun db => updateBalance db uid finalBalance]

/-- Run a list of persistence statements in order. -/
def applyWrites (db : DB) (ws : List (DB → DB)) : DB :=
  ws.foldl (fun d f => f d) db

/-- The `socket.on("spin")` handler of `server.js`.  `loggedIn` is
`socket.data.userId`; `g` is the grid `randomSpin` draws; `nonce` is
`Date.now()`.  The parameter check `!betCreditsN || !satsPerCreditN`
rejects exactly the falsy numbers `0` and `NaN`; over `Int` that is the
test against `0` (negative values are truthy and pass). -/
def spinHandler (db : DB) (loggedIn : Option Nat) (betCredits satsPerCredit : Int)
    (g : Grid) (nonce : Nat) : DB × SpinReply :=
  match loggedIn with
  | none => (db, .notLoggedIn)
  | some userId =>
    match findUser db userId with
    | none => (db, .userNotFound)
    | some user =>
      if betCredits = 0 ∨ satsPerCredit = 0 then (db, .invalidParams)
      else
        let cost := betCredits * satsPerCredit
        if user.balance < cost then (db, .insufficientBalance)
        else
          let afterBet := user.balance - cost
          let spinRes := randomSpin g
          let prizeSats := (spinRes.prizeCredits : Int) * satsPerCredit
          let finalBalance := afterBet + prizeSats
          (applyWrites db (spinWrites userId afterBet nonce spinRes.lines prizeSats finalBalance),
           .result prizeSats finalBalance)

/-! ### The `spin` handler of the simpler callback variant -/

/-- The reply of the simpler variant's `spin` handler: a `spinError`
message or `spinResult` with `result`, `win` and `balance`. -/
inductive SimpleSpinReply where
  | notLoggedIn
  | userNotFound
  | insufficientBalance
  | result (reels : List String) (win : Int) (balance : Int)
deriving DecidableEq, Repr

/-- The fixed bet `const bet = 10` of the simpler variant. -/
def simpleBet : Int := 10

/-- The `socket.on("spin")` handler of the simpler variant.  `loggedIn` is
`socket.username`; `r0 r1 r2` are the three uniformly drawn reel symbols. -/
def spinSimple (db : DB) (loggedIn : Option String) (r0 r1 r2 : String) :
    DB × SimpleSpinReply :=
  match loggedIn with
  | none => (db, .notLoggedIn)
  | some uname =>
    match findUserByName db uname with
    | none => (db, .userNotFound)
    | some row =>
      if row.balance < simpleBet then (db, .insufficientBalance)
      else
        let win : Int := if r0 = r1 ∧ r1 = r2 then simpleBet * 10 else 0
        let newBalance := row.balance - simpleBet + win
        (updateBalanceByName db uname newBalance, .result [r0, r1, r2] win newBalance)

/-! ### Login handlers -/

/-- JS `String.prototype.trim`: drop whitespace from both ends.  Written
out over the character list so that it is kernel-computable. -/
def trimStr (s : String) : String :=
  ⟨((s.data.dropWhile Char.isWhitespace).reverse.dropWhile Char.isWhitespace).reverse⟩

/-- Reply of `POST /api/login` in `server.js`: HTTP 400 on a bad username,
HTTP 500 on an internal error, else the user's id, username and balance. -/
inductive LoginReply where
  | invalidUsername
  | internalError
  | success (id : Nat) (username : String) (balance : Int)
deriving DecidableEq, Repr

/-- `POST /api/login` of `server.js`.  The guard
`!username || typeof username !== "string" || username.trim().length === 0`
is, for string input, exactly `username.trim = ""` (the empty string is
falsy and also trims to itself).  A missing user is inserted with balance
0 and re-read by `lastID`. -/
def loginRest (db : DB) (username : String) : DB × LoginReply :=
  if trimStr username = "" then (db, .invalidUsername)
  else
    let clean := trimStr username
    match findUserByName db clean with
    | some user => (db, .success user.id user.username user.balance)
    | none =>
      let ins := insertUser db clean 0
      match findUser ins.1 ins.2 with
      | some user => (ins.1, .success user.id user.username user.balance)
      | none => (ins.1, .internalError)

/-- Reply of the simpler variant's `login` event. -/
inductive SimpleLoginReply where
  | invalidUsername
  | success (username : String) (balance : Int)
deriving DecidableEq, Repr

/-- The `socket.on("login")` handler of the simpler variant.  Its only
guard is `!username`, i.e. the empty string for string input; the username
is never trimmed, and a fresh user is inserted with balance 0 while the
handler replies with balance 0 directly. -/
def loginSimple (db : DB) (username : String) : DB × SimpleLoginReply :=
  if username = "" then (db, .invalidUsername)
  else
    match findUserByName db username with
    | some row => (db, .success username row.balance)
    | none => ((insertUser db username 0).1, .success username 0)

/-! ### `POST /api/check_payment` of `server.js` -/

/-- What the LNbits oracle reports for a payment hash: the `paid` flag and
the raw `amount` field (possibly in milli-sats). -/
structure OracleResp where
  paid : Bool
  amount : Int
deriving DecidableEq, Repr

/-- Reply of `POST /api/check_payment`. -/
inductive CheckReply where
  | badRequest
  | notPaid
  | internalError
  | success (balance : Int) (paidSats : Int)
deriving DecidableEq, Repr

/-- The unit-normalization heuristic of `check_payment`:
`paidAmount > 1000000 ? Math.floor(paidAmount / 1000) : paidAmount`. -/
def normalizeSats (amount : Int) : Int :=
  if amount > 1000000 then amount.fdiv 1000 else amount

/-- `POST /api/check_payment` of `server.js`, with the oracle's answer for
`payment_hash` passed in.  The guard `!u || !payment_hash` rejects user id
0 and an empty hash.  When the oracle reports paid: a missing invoice row
is inserted already paid for the requested user; an unpaid row is marked
paid; a paid row is left alone.  In every paid case the user's balance is
then credited with the normalized amount.  A missing user makes the JS
`user.balance` access throw after the invoice writes already happened
(caught as HTTP 500). -/
def checkPayment (db : DB) (userId : Nat) (payment_hash : String)
    (oracle : OracleResp) : DB × CheckReply :=
  if userId = 0 ∨ payment_hash = "" then (db, .badRequest)
  else if oracle.paid then
    let paidSats := normalizeSats oracle.amount
    let db1 :=
      match findInvoice db payment_hash with
      | none => addInvoice db ⟨userId, paidSats, payment_hash, "", true⟩
      | some inv => if inv.paid then db else markInvoicePaid db payment_hash
    match findUser db1 userId with
    | none => (db1, .internalError)
    | some user =>
      let newBalance := user.balance + paidSats
      (updateBalance db1 userId newBalance, .success newBalance paidSats)
  else (db, .notPaid)

/-! ### Interleaving model of concurrent `spin` handlers

Each awaited database statement of the `spin` handler of `server.js` is
one atomic step; between steps the event loop may run another handler.
Step 0 is the `db.get` read (with the synchronous validation that
follows it), steps 1–3 are the three writes, computed — as in the source —
from the balance snapshot taken at step 0. -/

/-- The request of one in-flight `spin` task. -/
structure SpinTask where
  userId : Nat
  betCredits : Int
  satsPerCredit : Int
  grid : Grid
  nonce : Nat
deriving DecidableEq, Repr

/-- The control state of one in-flight `spin` task: the next awaited
statement (4 = finished) and the user row read at step 0. -/
structure TaskCtl where
  pc : Nat
  snapshot : Option User
deriving DecidableEq, Repr

/-- A task that has not started. -/
def taskStart : TaskCtl := ⟨0, none⟩

/-- One awaited statement of the `spin` handler of `server.js` run by task
`t` in control state `c` against the shared database. -/
def spinStep (t : SpinTask) (c : TaskCtl) (db : DB) : TaskCtl × DB :=
  match c.pc with
  | 0 =>
    match findUser db t.userId with
    | none => (⟨4, none⟩, db)
    | some user =>
      if t.betCredits = 0 ∨ t.satsPerCredit = 0 then (⟨4, none⟩, db)
      else if user.balance < t.betCredits * t.satsPerCredit then (⟨4, none⟩, db)
      else (⟨1, some user⟩, db)
  | 1 =>
    match c.snapshot with
    | some user =>
      (⟨2, c.snapshot⟩, updateBalance db t.userId (user.balance - t.betCredits * t.satsPerCredit))
    | none => (⟨4, none⟩, db)
  | 2 =>
    match c.snapshot with
    | some _ =>
      (⟨3, c.snapshot⟩,
       addSpin db ⟨t.userId, t.nonce, spinLines t.grid,
                   ((randomSpin t.grid).prizeCredits : Int) * t.satsPerCredit⟩)
    | none => (⟨4, none⟩, db)
  | 3 =>
    match c.snapshot with
    | some user =>
      (⟨4, c.snapshot⟩,
       updateBalance db t.userId
         (user.balance - t.betCredits * t.satsPerCredit
          + ((randomSpin t.grid).prizeCredits : Int) * t.satsPerCredit))
    | none => (⟨4, none⟩, db)
  | _ => (c, db)

/-- Run two concurrent `spin` tasks under a schedule: `false` steps task
0, `true` steps task 1. -/
def runSched (t0 t1 : SpinTask) : List Bool → TaskCtl × TaskCtl × DB → TaskCtl × TaskCtl × DB
  | [], st => st
  | b :: rest, (c0, c1, db) =>
    if b then
      let s := spinStep t1 c1 db
      runSched t0 t1 rest (c0, s.1, s.2)
    else
      let s := spinStep t0 c0 db
      runSched t0 t1 rest (s.1, c1, s.2)

/-! ### Concrete fixtures used by witnesses and counterexamples -/

/-- A grid on which no pay line matches (each line mixes three symbols). -/
def gLose : Grid := ⟨"🍒", "🍒", "🍒", "🍋", "🍋", "🍋", "🍉", "🍉", "🍉"⟩

/-- The all-⭐ grid: every one of the three lines pays 360. -/
def gStar : Grid := ⟨"⭐", "⭐", "⭐", "⭐", "⭐", "⭐", "⭐", "⭐", "⭐"⟩

/-- A database with a single freshly created user of balance 0. -/
def dbAlice0 : DB := ⟨[⟨1, "alice", 0⟩], [], []⟩

/-- A database with a single user of balance 100. -/
def dbAlice100 : DB := ⟨[⟨1, "alice", 100⟩], [], []⟩

/-- A database with a single user of balance 5. -/
def dbAlice5 : DB := ⟨[⟨1, "alice", 5⟩], [], []⟩

/-- An empty database. -/
def dbEmpty : DB := ⟨[], [], []⟩

/-- User 1 with balance 0 and a pending (unpaid) invoice of 100 sats with
payment hash `"h"`. -/
def dbPendingInv : DB := ⟨[⟨1, "alice", 0⟩], [], [⟨1, 100, "h", "req", false⟩]⟩

/-- The oracle reporting hash paid with amount 100. -/
def oraclePaid100 : OracleResp := ⟨true, 100⟩

/-- A spin task of user 1: bet 1 credit at 10 sats/credit on `gLose`
(cost 10, prize 0). -/
def tSpin : SpinTask := ⟨1, 1, 10, gLose, 0⟩

/-- Serial schedule: task 0 runs all four steps, then task 1. -/
def schedSerial01 : List Bool := [false, false, false, false, true, true, true, true]

/-- Serial schedule: task 1 runs all four steps, then task 0. -/
def schedSerial10 : List Bool := [true, true, true, true, false, false, false, false]

/-- Interleaved schedule: the two tasks alternate at every await point, so
both read the same stale balance before either writes. -/
def schedAlt : List Bool := [false, true, false, true, false, true, false, true]

/-- The database after the first two awaited statements (the balance read
and the debit write) of a single spin task on `dbAlice100`: the persisted
state of a handler that dies before the spin-record insert. -/
def dbMidSpin : DB :=
  (spinStep tSpin (spinStep tSpin taskStart dbAlice100).1 (spinStep tSpin taskStart dbAlice100).2).2

/-! ### Helper lemmas about the database primitives -/

theorem find?_update_balance (us : List User) (uid : Nat) (b : Int) :
    (us.map (fun u => if u.id == uid then { u with balance := b } else u)).find?
        (fun u => u.id == uid)
      = (us.find? (fun u => u.id == uid)).map (fun u => { u with balance := b }) := by
  induction us with
  | nil => rfl
  | cons u us ih =>
    cases hb : u.id == uid with
    | true =>
      simp only [List.map_cons, List.find?_cons, hb, if_true]
      simp [hb]
    | false =>
      simp only [List.map_cons, hb, Bool.false_eq_true, if_false, List.find?_cons, ih]

theorem find?_update_byname (us : List User) (name : String) (b : Int) :
    (us.map (fun u => if u.username == name then { u with balance := b } else u)).find?
        (fun u => u.username == name)
      = (us.find? (fun u => u.username == name)).map (fun u => { u with balance := b }) := by
  induction us with
  | nil => rfl
  | cons u us ih =>
    cases hb : u.username == name with
    | true =>
      simp only [List.map_cons, List.find?_cons, hb, if_true]
      simp [hb]
    | false =>
      simp only [List.map_cons, hb, Bool.false_eq_true, if_false, List.find?_cons, ih]

/-- Looking a user up after `UPDATE users SET balance = ? WHERE id = ?`
finds the old row with the balance replaced. -/
theorem findUser_updateBalance (db : DB) (uid : Nat) (b : Int) :
    findUser (updateBalance db uid b) uid
      = (findUser db uid).map (fun u => { u with balance := b }) :=
  find?_update_balance db.users uid b

/-- Looking a user up after `UPDATE users SET balance = ? WHERE username = ?`
finds the old row with the balance replaced. -/
theorem findUserByName_updateBalanceByName (db : DB) (name : String) (b : Int) :
    findUserByName (updateBalanceByName db name b) name
      = (findUserByName db name).map (fun u => { u with balance := b }) :=
  find?_update_byname db.users name b

theorem find?_append_none {α : Type} (p : α → Bool) (xs ys : List α)
    (h : xs.find? p = none) : (xs ++ ys).find? p = ys.find? p := by
  induction xs with
  | nil => rfl
  | cons x xs ih =>
    rw [List.cons_append]
    cases hx : p x with
    | true =>
      have hx2 : p x = true := hx
      rw [List.find?_cons_of_pos _ hx2] at h
      cases h
    | false =>
      have hx2 : ¬ p x = true := by simp [hx]
      rw [List.find?_cons_of_neg _ hx2] at h
      rw [List.find?_cons_of_neg _ hx2]
      exact ih h

theorem id_le_maxFold (us : List User) (u : User) (hu : u ∈ us) :
    u.id ≤ us.foldr (fun v m => max v.id m) 0 := by
  induction us with
  | nil => cases hu
  | cons v vs ih =>
    rcases List.mem_cons.1 hu with h | h
    · subst h; exact Nat.le_max_left _ _
    · exact Nat.le_trans (ih h) (Nat.le_max_right _ _)

/-- A fresh `AUTOINCREMENT` id matches no existing user row. -/
theorem find?_users_fresh (db : DB) :
    db.users.find? (fun u => u.id == nextUserId db) = none := by
  apply List.find?_eq_none.2
  intro u hu
  simp only [beq_iff_eq]
  intro h
  have h2 := id_le_maxFold db.users u hu
  unfold nextUserId at h
  omega

/-- Re-reading an inserted user by its `lastID` finds exactly the inserted
row. -/
theorem findUser_insertUser (db : DB) (name : String) (bal : Int) :
    findUser (insertUser db name bal).1 (insertUser db name bal).2
      = some ⟨nextUserId db, name, bal⟩ := by
  unfold findUser insertUser
  simp only
  rw [find?_append_none _ _ _ (find?_users_fresh db)]
  simp [List.find?_cons]

theorem findUser_addSpin (db : DB) (s : SpinRec) (uid : Nat) :
    findUser (addSpin db s) uid = findUser db uid := rfl

theorem findUser_addInvoice (db : DB) (i : Invoice) (uid : Nat) :
    findUser (addInvoice db i) uid = findUser db uid := rfl

theorem invoices_updateBalance (db : DB) (uid : Nat) (b : Int) :
    (updateBalance db uid b).invoices = db.invoices := rfl

theorem invoices_addInvoice (db : DB) (i : Invoice) :
    (addInvoice db i).invoices = db.invoices ++ [i] := rfl

theorem spins_updateBalance (db : DB) (uid : Nat) (b : Int) :
    (updateBalance db uid b).spins = db.spins := rfl

theorem spins_addSpin (db : DB) (s : SpinRec) :
    (addSpin db s).spins = db.spins ++ [s] := rfl

/-- The successful path of the `spin` handler of `server.js`: under the
preconditions it runs the three writes in order and replies with the prize
and the final balance. -/
theorem spinHandler_ok (db : DB) (uid : Nat) (bet sats : Int) (g : Grid) (n : Nat) (user : User)
    (hu : findUser db uid = some user) (hb0 : bet ≠ 0) (hs0 : sats ≠ 0)
    (hbal : ¬ user.balance < bet * sats) :
    spinHandler db (some uid) bet sats g n =
      (updateBalance (addSpin (updateBalance db uid (user.balance - bet * sats))
          ⟨uid, n, spinLines g, ((randomSpin g).prizeCredits : Int) * sats⟩) uid
          (user.balance - bet * sats + ((randomSpin g).prizeCredits : Int) * sats),
       .result (((randomSpin g).prizeCredits : Int) * sats)
         (user.balance - bet * sats + ((randomSpin g).prizeCredits : Int) * sats)) := by
  have hv : ¬ (bet = 0 ∨ sats = 0) := by tauto
  simp [spinHandler, hu, hv, hbal, applyWrites, spinWrites, randomSpin]

/-! ### Claim theorems -/

/-- Claim C1: for every spin that succeeds the resulting balance — both
the one replied and the one persisted — equals the old balance minus the
cost (`betCredits * satsPerCredit`, or the fixed bet of 10 in the simpler
variant) plus the prize, where the prize is exactly the payout-table
credits won for the generated grid times `satsPerCredit` (respectively
`bet * 10` on a triple match in the simpler variant). -/
theorem C1_spin_balance_equation :
    (∀ (db : DB) (uid : Nat) (bet sats : Int) (g : Grid) (n : Nat) (user : User),
        findUser db uid = some user → bet ≠ 0 → sats ≠ 0 → ¬ user.balance < bet * sats →
        (spinHandler db (some uid) bet sats g n).2 =
            .result (((randomSpin g).prizeCredits : Int) * sats)
              (user.balance - bet * sats + ((randomSpin g).prizeCredits : Int) * sats) ∧
          findUser (spinHandler db (some uid) bet sats g n).1 uid =
            some { user with balance :=
                     user.balance - bet * sats + ((randomSpin g).prizeCredits : Int) * sats }) ∧
    (∀ (db : DB) (uname r0 r1 r2 : String) (row : User),
        findUserByName db uname = some row → ¬ row.balance < simpleBet →
        (spinSimple db (some uname) r0 r1 r2).2 =
            .result [r0, r1, r2] (if r0 = r1 ∧ r1 = r2 then simpleBet * 10 else 0)
              (row.balance - simpleBet + (if r0 = r1 ∧ r1 = r2 then simpleBet * 10 else 0)) ∧
          findUserByName (spinSimple db (some uname) r0 r1 r2).1 uname =
            some { row with balance :=
                     row.balance - simpleBet + (if r0 = r1 ∧ r1 = r2 then simpleBet * 10 else 0) }) := by
  constructor
  · intro db uid bet sats g n user hu hb0 hs0 hbal
    rw [spinHandler_ok db uid bet sats g n user hu hb0 hs0 hbal]
    refine ⟨rfl, ?_⟩
    simp [findUser_updateBalance, findUser_addSpin, hu]
  · intro db uname r0 r1 r2 row hu hbal
    constructor
    · simp [spinSimple, hu, hbal]
    · simp [spinSimple, hu, hbal, findUserByName_updateBalanceByName]

/-- Witness for C1: a user with balance 100 spins 1 credit at 10
sats/credit on a losing grid; both variants end at balance 90 with prize 0. -/
theorem C1_spin_balance_equation_witness :
    ((spinHandler dbAlice100 (some 1) 1 10 gLose 0).2 = .result 0 90 ∧
      findUser (spinHandler dbAlice100 (some 1) 1 10 gLose 0).1 1 = some ⟨1, "alice", 90⟩) ∧
    ((spinSimple dbAlice100 (some "alice") "🍒" "🍋" "🍉").2 = .result ["🍒", "🍋", "🍉"] 0 90 ∧
      findUserByName (spinSimple dbAlice100 (some "alice") "🍒" "🍋" "🍉").1 "alice" =
        some ⟨1, "alice", 90⟩) :=
  ⟨C1_spin_balance_equation.1 dbAlice100 1 1 10 gLose 0 ⟨1, "alice", 100⟩ (by decide) (by decide)
      (by decide) (by decide),
   C1_spin_balance_equation.2 dbAlice100 "alice" "🍒" "🍋" "🍉" ⟨1, "alice", 100⟩ (by decide)
      (by decide)⟩

/-- Claim C2 (code bug): crediting the same `paymentId` twice is supposed
to credit the balance exactly once, but `check_payment` credits the user on
every poll that observes the oracle's paid state: a second poll on the
already-paid invoice `"h"` moves the balance from 100 to 200. -/
theorem C2_duplicate_poll_double_credits :
    (checkPayment dbPendingInv 1 "h" oraclePaid100).2 = .success 100 100 ∧
    (checkPayment (checkPayment dbPendingInv 1 "h" oraclePaid100).1 1 "h" oraclePaid100).2 =
      .success 200 100 ∧
    (checkPayment (checkPayment dbPendingInv 1 "h" oraclePaid100).1 1 "h" oraclePaid100).1.users =
      [⟨1, "alice", 200⟩] := by decide

/-- Claim C3: whenever the user's balance is strictly below the cost of
the bet, the spin fails with the insufficient-balance error and the
database (balance and spin records) is returned unchanged, in both
variants. -/
theorem C3_insufficient_balance_rejected :
    (∀ (db : DB) (uid : Nat) (bet sats : Int) (g : Grid) (n : Nat) (user : User),
        findUser db uid = some user → bet ≠ 0 → sats ≠ 0 → user.balance < bet * sats →
        spinHandler db (some uid) bet sats g n = (db, .insufficientBalance)) ∧
    (∀ (db : DB) (uname r0 r1 r2 : String) (row : User),
        findUserByName db uname = some row → row.balance < simpleBet →
        spinSimple db (some uname) r0 r1 r2 = (db, .insufficientBalance)) := by
  constructor
  · intro db uid bet sats g n user hu hb0 hs0 hbal
    have hv : ¬ (bet = 0 ∨ sats = 0) := by tauto
    simp [spinHandler, hu, hv, hbal]
  · intro db uname r0 r1 r2 row hu hbal
    simp [spinSimple, hu, hbal]

/-- Witness for C3: a user with balance 5 cannot afford cost 10 in either
variant and the database is unchanged. -/
theorem C3_insufficient_balance_rejected_witness :
    spinHandler dbAlice5 (some 1) 1 10 gLose 0 = (dbAlice5, .insufficientBalance) ∧
    spinSimple dbAlice5 (some "alice") "🍒" "🍒" "🍒" = (dbAlice5, .insufficientBalance) :=
  ⟨C3_insufficient_balance_rejected.1 dbAlice5 1 1 10 gLose 0 ⟨1, "alice", 5⟩ (by decide)
      (by decide) (by decide) (by decide),
   C3_insufficient_balance_rejected.2 dbAlice5 "alice" "🍒" "🍒" "🍒" ⟨1, "alice", 5⟩ (by decide)
      (by decide)⟩

/-- Counterexample for C4: the claim that no execution, including one
failing mid-way, leaves the balance updated without the spin record is
false — stopping a spin (bet 1 at 10 sats/credit from balance 100) after
its first persistence statement leaves the balance debited to 90 with no
spin record written. -/
theorem C4_partial_write_counterexample :
    findUser dbMidSpin 1 = some ⟨1, "alice", 90⟩ ∧ dbMidSpin.spins = [] ∧
    dbAlice100.spins = [] ∧ findUser dbAlice100 1 = some ⟨1, "alice", 100⟩ := by decide

/-- Claim C4 as amended: the debit write, the spin-record insert and the
final balance write are three separate sequential statements (no
transaction).  An execution that completes persists both the spin record
and the final balance, but an execution stopped after the first statement
has the balance updated and no record. -/
theorem C4_sequential_writes_amended :
    (∀ (db : DB) (uid : Nat) (bet sats : Int) (g : Grid) (n : Nat) (user : User),
        findUser db uid = some user → bet ≠ 0 → sats ≠ 0 → ¬ user.balance < bet * sats →
        (spinHandler db (some uid) bet sats g n).1.spins =
            db.spins ++ [⟨uid, n, spinLines g, ((randomSpin g).prizeCredits : Int) * sats⟩] ∧
          findUser (spinHandler db (some uid) bet sats g n).1 uid =
            some { user with balance :=
                     user.balance - bet * sats + ((randomSpin g).prizeCredits : Int) * sats }) ∧
    (∀ (db : DB) (uid : Nat) (a : Int) (n : Nat) (l : List (List String)) (p f : Int) (user : User),
        findUser db uid = some user →
        findUser (applyWrites db ((spinWrites uid a n l p f).take 1)) uid =
            some { user with balance := a } ∧
          (applyWrites db ((spinWrites uid a n l p f).take 1)).spins = db.spins) := by
  constructor
  · intro db uid bet sats g n user hu hb0 hs0 hbal
    rw [spinHandler_ok db uid bet sats g n user hu hb0 hs0 hbal]
    constructor
    · simp [spins_updateBalance, spins_addSpin]
    · simp [findUser_updateBalance, findUser_addSpin, hu]
  · intro db uid a n l p f user hu
    constructor
    · simp [applyWrites, spinWrites, findUser_updateBalance, hu]
    · simp [applyWrites, spinWrites, spins_updateBalance]

/-- Witness for the amended C4: the completed spin writes record and
balance; the one-statement prefix debits without a record. -/
theorem C4_sequential_writes_amended_witness :
    ((spinHandler dbAlice100 (some 1) 1 10 gLose 7).1.spins =
        dbAlice100.spins ++ [⟨1, 7, spinLines gLose, 0⟩] ∧
      findUser (spinHandler dbAlice100 (some 1) 1 10 gLose 7).1 1 = some ⟨1, "alice", 90⟩) ∧
    (findUser (applyWrites dbAlice100 ((spinWrites 1 90 7 [] 0 90).take 1)) 1 =
        some ⟨1, "alice", 90⟩ ∧
      (applyWrites dbAlice100 ((spinWrites 1 90 7 [] 0 90).take 1)).spins = dbAlice100.spins) :=
  ⟨C4_sequential_writes_amended.1 dbAlice100 1 1 10 gLose 7 ⟨1, "alice", 100⟩ (by decide)
      (by decide) (by decide) (by decide),
   C4_sequential_writes_amended.2 dbAlice100 1 90 7 [] 0 90 ⟨1, "alice", 100⟩ (by decide)⟩

/-- Claim C5 (code bug): a spin with negative `betCredits` is supposed to
be rejected as invalid parameters, but the falsy-only check lets `-1`
through: from balance 0, a spin of bet `-1` at 1 sat/credit succeeds with
negative cost and leaves the balance at 1. -/
theorem C5_negative_bet_accepted :
    (spinHandler dbAlice0 (some 1) (-1) 1 gLose 0).2 = .result 0 1 ∧
    (spinHandler dbAlice0 (some 1) (-1) 1 gLose 0).1.users = [⟨1, "alice", 1⟩] := by decide

/-- Claim C6 (code bug): the balance is supposed to stay non-negative, but
a freshly created user with balance 0 can spin bet 1 at `-1` sats/credit
on the all-⭐ grid; the negative prize drives the persisted balance to
`-1079`. -/
theorem C6_balance_can_go_negative :
    (spinHandler dbAlice0 (some 1) 1 (-1) gStar 0).2 = .result (-1080) (-1079) ∧
    (spinHandler dbAlice0 (some 1) 1 (-1) gStar 0).1.users = [⟨1, "alice", -1079⟩] ∧
    (-1079 : Int) < 0 := by decide

/-- Claim C7: payout evaluation is a deterministic function of the grid —
the total is the sum of the payout-table lookups of the comma-joined keys
of the three fixed lines (middle row, down-diagonal, up-diagonal); a key
with no table entry contributes 0; the ⭐ triple key pays 360, so a grid
with an all-⭐ middle line gets 360 on that line; and the simpler variant
pays `bet * 10` on an all-equal triple. -/
theorem C7_payout_table_evaluation :
    (∀ g : Grid, (randomSpin g).prizeCredits =
        payLookup (String.intercalate "," [g.c0r1, g.c1r1, g.c2r1]) +
        payLookup (String.intercalate "," [g.c0r0, g.c1r1, g.c2r2]) +
        payLookup (String.intercalate "," [g.c0r2, g.c1r1, g.c2r0])) ∧
    (∀ key : String, (∀ e ∈ PAYTABLE, e.1 ≠ key) → payLookup key = 0) ∧
    payLookup "⭐,⭐,⭐" = 360 ∧
    (∀ g : Grid, g.c0r1 = "⭐" → g.c1r1 = "⭐" → g.c2r1 = "⭐" →
        payLookup (String.intercalate "," [g.c0r1, g.c1r1, g.c2r1]) = 360) ∧
    (∀ (db : DB) (uname r : String) (row : User),
        findUserByName db uname = some row → ¬ row.balance < simpleBet →
        (spinSimple db (some uname) r r r).2 =
          .result [r, r, r] (simpleBet * 10) (row.balance - simpleBet + simpleBet * 10)) := by
  refine ⟨?_, ?_, by decide, ?_, ?_⟩
  · intro g
    simp [randomSpin, evalLines, spinLines]
    omega
  · intro key h
    have hn : PAYTABLE.find? (fun e => e.1 == key) = none := by
      apply List.find?_eq_none.2
      intro e he
      simpa using h e he
    simp [payLookup, hn]
  · intro g h1 h2 h3
    rw [h1, h2, h3]
    decide
  · intro db uname r row hu hbal
    simp [spinSimple, hu, hbal]

/-- Witness for C7: a mixed key pays 0, the all-⭐ middle line pays 360,
and a ⭐ triple in the simpler variant wins `10 * 10` from balance 100. -/
theorem C7_payout_table_evaluation_witness :
    payLookup "🍒,🍋,🍉" = 0 ∧
    payLookup (String.intercalate "," [gStar.c0r1, gStar.c1r1, gStar.c2r1]) = 360 ∧
    (spinSimple dbAlice100 (some "alice") "⭐" "⭐" "⭐").2 =
      .result ["⭐", "⭐", "⭐"] (simpleBet * 10) (100 - simpleBet + simpleBet * 10) :=
  ⟨C7_payout_table_evaluation.2.1 "🍒,🍋,🍉" (by decide),
   C7_payout_table_evaluation.2.2.2.1 gStar rfl rfl rfl,
   C7_payout_table_evaluation.2.2.2.2 dbAlice100 "alice" "⭐" ⟨1, "alice", 100⟩ (by decide)
      (by decide)⟩

/-- Counterexample for C8: the claim that a username which is not a
non-empty string after trimming is rejected rather than creating a user is
false for the simpler variant's login, which never trims: the
whitespace-only username `" "` is accepted verbatim and creates a user. -/
theorem C8_whitespace_username_counterexample :
    trimStr " " = "" ∧
    loginSimple dbEmpty " " = (⟨[⟨1, " ", 0⟩], [], []⟩, .success " " 0) := by decide

/-- Claim C8 as amended: a new username creates a user with balance 0 and
a known username returns the stored balance with no mutation, in both
variants; the HTTP login rejects any username that trims to empty, while
the simpler variant's login rejects only the empty username (whitespace-only
names are accepted verbatim). -/
theorem C8_login_amended :
    (∀ (db : DB) (u : String), trimStr u = "" → loginRest db u = (db, .invalidUsername)) ∧
    (∀ (db : DB) (u : String) (user : User), trimStr u ≠ "" →
        findUserByName db (trimStr u) = some user →
        loginRest db u = (db, .success user.id user.username user.balance)) ∧
    (∀ (db : DB) (u : String), trimStr u ≠ "" → findUserByName db (trimStr u) = none →
        (loginRest db u).2 = .success (nextUserId db) (trimStr u) 0 ∧
          (loginRest db u).1.users = db.users ++ [⟨nextUserId db, trimStr u, 0⟩]) ∧
    (∀ db : DB, loginSimple db "" = (db, .invalidUsername)) ∧
    (∀ (db : DB) (u : String) (row : User), u ≠ "" → findUserByName db u = some row →
        loginSimple db u = (db, .success u row.balance)) ∧
    (∀ (db : DB) (u : String), u ≠ "" → findUserByName db u = none →
        (loginSimple db u).2 = .success u 0 ∧
          (loginSimple db u).1.users = db.users ++ [⟨nextUserId db, u, 0⟩]) := by
  refine ⟨?_, ?_, ?_, ?_, ?_, ?_⟩
  · intro db u h
    simp [loginRest, h]
  · intro db u user h1 h2
    simp [loginRest, h1, h2]
  · intro db u h1 h2
    have hins := findUser_insertUser db (trimStr u) 0
    simp only [insertUser] at hins
    constructor
    · simp [loginRest, h1, h2, insertUser, hins]
    · simp [loginRest, h1, h2, insertUser, hins]
  · intro db
    simp [loginSimple]
  · intro db u row h1 h2
    simp [loginSimple, h1, h2]
  · intro db u h1 h2
    simp [loginSimple, h1, h2, insertUser]

/-- Witness for the amended C8: all six login behaviors at concrete
inputs. -/
theorem C8_login_amended_witness :
    loginRest dbAlice100 "  " = (dbAlice100, .invalidUsername) ∧
    loginRest dbAlice100 " alice " = (dbAlice100, .success 1 "alice" 100) ∧
    ((loginRest dbEmpty "bob").2 = .success (nextUserId dbEmpty) (trimStr "bob") 0 ∧
      (loginRest dbEmpty "bob").1.users = dbEmpty.users ++ [⟨nextUserId dbEmpty, trimStr "bob", 0⟩]) ∧
    loginSimple dbAlice100 "" = (dbAlice100, .invalidUsername) ∧
    loginSimple dbAlice100 "alice" = (dbAlice100, .success "alice" 100) ∧
    ((loginSimple dbEmpty "bob").2 = .success "bob" 0 ∧
      (loginSimple dbEmpty "bob").1.users = dbEmpty.users ++ [⟨nextUserId dbEmpty, "bob", 0⟩]) :=
  ⟨C8_login_amended.1 dbAlice100 "  " (by decide),
   C8_login_amended.2.1 dbAlice100 " alice " ⟨1, "alice", 100⟩ (by decide) (by decide),
   C8_login_amended.2.2.1 dbEmpty "bob" (by decide) (by decide),
   C8_login_amended.2.2.2.1 dbAlice100,
   C8_login_amended.2.2.2.2.1 dbAlice100 "alice" ⟨1, "alice", 100⟩ (by decide) (by decide),
   C8_login_amended.2.2.2.2.2 dbEmpty "bob" (by decide) (by decide)⟩

/-- Claim C9 (code bug): two spins of the same user (balance 100, each
cost 10, prize 0) interleaved at the handlers' await points both read the
stale balance and end at 90, while either serial order ends at 80 — a lost
update, so the claimed serializability does not hold. -/
theorem C9_interleaved_spins_lose_update :
    (runSched tSpin tSpin schedAlt (taskStart, taskStart, dbAlice100)).2.2.users =
        [⟨1, "alice", 90⟩] ∧
    (runSched tSpin tSpin schedSerial01 (taskStart, taskStart, dbAlice100)).2.2.users =
        [⟨1, "alice", 80⟩] ∧
    (runSched tSpin tSpin schedSerial10 (taskStart, taskStart, dbAlice100)).2.2.users =
        [⟨1, "alice", 80⟩] ∧
    (90 : Int) ≠ 80 := by decide

/-- Claim C10: when the oracle reports the hash paid and no invoice row
exists for it, `check_payment` inserts a new invoice row for the requested
user already marked paid, and credits that user with the oracle-reported,
unit-normalized amount. -/
theorem C10_check_payment_credits_request_user
    (db : DB) (u : Nat) (hash : String) (oracle : OracleResp) (user : User)
    (hu : u ≠ 0) (hh : hash ≠ "") (hp : oracle.paid = true)
    (hni : findInvoice db hash = none) (hfu : findUser db u = some user) :
    (checkPayment db u hash oracle).2 =
        .success (user.balance + normalizeSats oracle.amount) (normalizeSats oracle.amount) ∧
      (checkPayment db u hash oracle).1.invoices =
        db.invoices ++ [⟨u, normalizeSats oracle.amount, hash, "", true⟩] ∧
      findUser (checkPayment db u hash oracle).1 u =
        some { user with balance := user.balance + normalizeSats oracle.amount } := by
  have hv : ¬ (u = 0 ∨ hash = "") := by tauto
  have hfu2 : findUser (addInvoice db ⟨u, normalizeSats oracle.amount, hash, "", true⟩) u =
      some user := hfu
  refine ⟨?_, ?_, ?_⟩ <;>
    simp [checkPayment, hv, hp, hni, hfu2, invoices_updateBalance, invoices_addInvoice,
      findUser_updateBalance, findUser_addInvoice, hfu]

/-- Witness for C10: user 1 with balance 5 polls the unknown hash `"h2"`
which the oracle reports paid with a milli-sat amount of 2000000; the
normalized 2000 sats are credited and a paid invoice row is inserted. -/
theorem C10_check_payment_credits_request_user_witness :
    (1 : Nat) ≠ 0 ∧ "h2" ≠ "" ∧ (OracleResp.mk true 2000000).paid = true ∧
    findInvoice dbAlice5 "h2" = none ∧ findUser dbAlice5 1 = some ⟨1, "alice", 5⟩ ∧
    ((checkPayment dbAlice5 1 "h2" ⟨true, 2000000⟩).2 = .success 2005 2000 ∧
      (checkPayment dbAlice5 1 "h2" ⟨true, 2000000⟩).1.invoices =
        dbAlice5.invoices ++ [⟨1, 2000, "h2", "", true⟩] ∧
      findUser (checkPayment dbAlice5 1 "h2" ⟨true, 2000000⟩).1 1 = some ⟨1, "alice", 2005⟩) :=
  ⟨by decide, by decide, rfl, by decide, by decide,
   C10_check_payment_credits_request_user dbAlice5 1 "h2" ⟨true, 2000000⟩ ⟨1, "alice", 5⟩
     (by decide) (by decide) rfl (by decide) (by decide)⟩

end SlotDemo
